import Mathlib

/-!
Verification of `django_elasticache/memcached.py` (django-elasticache).

The module is shallowly embedded: Python attribute-presence caches become
`Option` fields of an explicit state record, the external discovery helper
`get_cluster_info` becomes an oracle function in an environment record, and
every operation returns, besides its result and the new state, a log of the
discovery calls it made and a count of the underlying clients it constructed,
so that "at most one discovery" and "exactly one construction" claims are
expressible.
-/

namespace DjangoElasticache

/-- Python values appearing in the backend's params / OPTIONS dictionaries. -/
inductive PyVal where
  | none : PyVal
  | bool (b : Bool) : PyVal
  | int (n : Int) : PyVal
  | str (s : String) : PyVal
  | dict (d : List (String × PyVal)) : PyVal

/-- A Python dict with string keys, as used for `params` and `OPTIONS`. -/
abbrev PyDict : Type := List (String × PyVal)

/-- `d.get(key, default)` on a Python dict. -/
def dictGet (d : PyDict) (key : String) (default : PyVal) : PyVal :=
  match d.find? (fun kv => kv.1 = key) with
  | Option.some kv => kv.2
  | Option.none => default

/-- Python exceptions relevant to the module: the configuration error raised
in `__init__`, the two socket errors caught in `get_cluster_nodes`, the plain
`Exception` raised there, and a catch-all for anything else. -/
inductive PyExc where
  | invalidCacheBackendError (msg : String) : PyExc
  | gaierror (msg : String) : PyExc
  | timeout (msg : String) : PyExc
  | exception (msg : String) : PyExc
  | other (name : String) (msg : String) : PyExc
deriving DecidableEq, Repr

/-- `str(err)` for the embedded exceptions. -/
def PyExc.message : PyExc → String
  | .invalidCacheBackendError m => m
  | .gaierror m => m
  | .timeout m => m
  | .exception m => m
  | .other _ m => m

/-- The exception classes caught by `except (socket.gaierror, socket.timeout)`
in `get_cluster_nodes`. -/
def isConnExc : PyExc → Bool
  | .gaierror _ => true
  | .timeout _ => true
  | _ => false

/-- A node list as returned in the `nodes` field of `get_cluster_info`:
a list of `host:port` strings. -/
abbrev Nodes : Type := List String

/-- Splitting a character list at every occurrence of `sep`, keeping empty
segments, as Python's `str.split` does. -/
def pySplitAux (sep : Char) : List Char → List (List Char)
  | [] => [[]]
  | c :: cs =>
    match pySplitAux sep cs with
    | r :: rs => if c = sep then [] :: r :: rs else (c :: r) :: rs
    | [] => [[c]]

/-- Python's `s.split(sep)` for a one-character separator: every occurrence
of `sep` separates two segments, empty segments are kept, and the empty
string yields `[""]`. -/
def pySplit (s : String) (sep : Char) : List String :=
  (pySplitAux sep s.data).map String.mk

/-- The per-instance configuration attributes set by `ElastiCache.__init__`:
`self._servers`, `self._options`, `self._discovery_timeout`,
`self._ignore_cluster_errors`. -/
structure ECConfig where
  _servers : List String
  _options : PyDict
  _discovery_timeout : PyVal
  _ignore_cluster_errors : PyVal

/-- The underlying `pylibmc` client handle: constructed from a node list by
`self._lib.Client(...)`; `behaviors` is assigned at most once afterwards in
`_cache` (it stays `Option.none` when `self._options` is empty). -/
structure MCClient where
  nodes : Nodes
  behaviors : Option PyVal

/-- The mutable cache state of one `ElastiCache` instance: the
`_cluster_nodes_cache` attribute (absent or present) and the `_client`
attribute on the storage container (absent or present). -/
structure ECState where
  _cluster_nodes_cache : Option Nodes
  _client : Option MCClient

/-- Arguments of one call to `get_cluster_info`. -/
structure DiscoveryCall where
  server : String
  port : String
  timeout : PyVal
  ignore_errors : PyVal

/-- The external environment: `get_cluster_info` from `cluster_utils`,
composed with the `['nodes']` subscript, as an oracle that either returns a
node list or raises. -/
structure Env where
  get_cluster_info : String → String → PyVal → PyVal → Except PyExc Nodes

/-- Outcome of one embedded operation: the Python result or exception, the
state after the operation, the discovery calls made (with their arguments, in
order) and the number of `self._lib.Client(...)` constructions performed. -/
structure OpOutcome (A : Type) where
  result : Except PyExc A
  state : ECState
  discovery_calls : List DiscoveryCall
  constructions : Nat

/-- `ElastiCache.__init__(server, params)`: the validation performed after
`super().__init__` (which only parses `server` into `self._servers` and
`params['OPTIONS']` into `self._options`, both taken here as inputs), and the
assignment of `self._discovery_timeout` and `self._ignore_cluster_errors`. -/
def elastiCacheInit (servers : List String) (params : PyDict)
    (options : PyDict) : Except PyExc ECConfig :=
  if servers.length > 1 then
    Except.error (PyExc.invalidCacheBackendError
      "ElastiCache should be configured with only one server (Configuration Endpoint)")
  else
    match servers with
    | [] => Except.error (PyExc.other "IndexError" "list index out of range")
    | s0 :: rest =>
      if (pySplit s0 ':').length ≠ 2 then
        Except.error (PyExc.invalidCacheBackendError
          "Server configuration should be in format IP:port")
      else
        Except.ok
          { _servers := s0 :: rest
            _options := options
            _discovery_timeout := dictGet params "DISCOVERY_TIMEOUT" PyVal.none
            _ignore_cluster_errors :=
              dictGet options "IGNORE_CLUSTER_ERRORS" (PyVal.bool false) }

/-- `ElastiCache.clear_cluster_nodes_cache`: delete `_cluster_nodes_cache`
when present (modelled as setting the optional field to absent). -/
def clear_cluster_nodes_cache (st : ECState) : ECState :=
  { st with _cluster_nodes_cache := Option.none }

/-- `ElastiCache.get_cluster_nodes`: return the cached node list when the
`_cluster_nodes_cache` attribute is present; otherwise split the configured
endpoint, call `get_cluster_info(server, port, self._discovery_timeout,
self._ignore_cluster_errors)['nodes']`, store and return the result, wrapping
`socket.gaierror` and `socket.timeout` into a plain `Exception` carrying the
endpoint and the original error. -/
def get_cluster_nodes (cfg : ECConfig) (env : Env) (st : ECState) :
    OpOutcome Nodes :=
  match st._cluster_nodes_cache with
  | Option.some nodes =>
    { result := Except.ok nodes, state := st
      discovery_calls := [], constructions := 0 }
  | Option.none =>
    match cfg._servers with
    | [] =>
      { result := Except.error (PyExc.other "IndexError" "list index out of range")
        state := st, discovery_calls := [], constructions := 0 }
    | s0 :: _ =>
      match pySplit s0 ':' with
      | [server, port] =>
        let call : DiscoveryCall :=
          { server := server, port := port
            timeout := cfg._discovery_timeout
            ignore_errors := cfg._ignore_cluster_errors }
        match env.get_cluster_info server port cfg._discovery_timeout
            cfg._ignore_cluster_errors with
        | Except.ok nodes =>
          { result := Except.ok nodes
            state := { st with _cluster_nodes_cache := Option.some nodes }
            discovery_calls := [call], constructions := 0 }
        | Except.error e =>
          if isConnExc e then
            { result := Except.error (PyExc.exception
                ("Cannot connect to cluster " ++ s0 ++ " (" ++ e.message ++ ")"))
              state := st, discovery_calls := [call], constructions := 0 }
          else
            { result := Except.error e
              state := st, discovery_calls := [call], constructions := 0 }
      | _ =>
        { result := Except.error (PyExc.other "ValueError"
            "not enough values to unpack")
          state := st, discovery_calls := [], constructions := 0 }

/-- Truthiness of `self._options` (a dict is falsy exactly when empty). -/
def optionsTruthy (options : PyDict) : Bool :=
  match options with
  | [] => false
  | _ :: _ => true

/-- The client built in the cache-miss branch of `_cache`:
`client = self._lib.Client(nodes)` followed by
`client.behaviors = self._options.get('behaviors', self._options)` when
`self._options` is non-empty (`if self._options:`). -/
def builtClient (cfg : ECConfig) (nodes : Nodes) : MCClient :=
  { nodes := nodes
    behaviors :=
      if optionsTruthy cfg._options then
        Option.some (dictGet cfg._options "behaviors" (PyVal.dict cfg._options))
      else
        Option.none }

/-- The `ElastiCache._cache` property: return the `_client` cached on the
storage container when present; otherwise build
`self._lib.Client(self.get_cluster_nodes())`, assign
`client.behaviors = self._options.get('behaviors', self._options)` when
`self._options` is non-empty, store the client on the container and return
it. -/
def cacheProperty (cfg : ECConfig) (env : Env) (st : ECState) :
    OpOutcome MCClient :=
  match st._client with
  | Option.some client =>
    { result := Except.ok client, state := st
      discovery_calls := [], constructions := 0 }
  | Option.none =>
    let o := get_cluster_nodes cfg env st
    match o.result with
    | Except.error e =>
      { result := Except.error e, state := o.state
        discovery_calls := o.discovery_calls, constructions := o.constructions }
    | Except.ok nodes =>
      let client : MCClient := builtClient cfg nodes
      { result := Except.ok client
        state := { o.state with _client := Option.some client }
        discovery_calls := o.discovery_calls
        constructions := o.constructions + 1 }

/-- A cache operation of the Django `PyLibMCCache` base class: obtain
`self._cache` and run the corresponding `pylibmc` method (abstracted as `op`)
against it. This is the body wrapped by `invalidate_cache_after_error`. -/
def superOp {A : Type} (cfg : ECConfig) (env : Env)
    (op : MCClient → Except PyExc A) (st : ECState) : OpOutcome A :=
  let o := cacheProperty cfg env st
  match o.result with
  | Except.error e =>
    { result := Except.error e, state := o.state
      discovery_calls := o.discovery_calls, constructions := o.constructions }
  | Except.ok client =>
    { result := op client, state := o.state
      discovery_calls := o.discovery_calls, constructions := o.constructions }

/-- The `invalidate_cache_after_error` decorator: run the wrapped function
once; on success return its result; on any exception call
`self.clear_cluster_nodes_cache()` and re-raise the same exception. The
second component counts the invocations of the wrapped function made during
the call (the body invokes it exactly once, in the `try` block). -/
def invalidate_cache_after_error {A : Type} (f : ECState → OpOutcome A)
    (st : ECState) : OpOutcome A × Nat :=
  let o := f st
  match o.result with
  | Except.ok _ => (o, 1)
  | Except.error _ => ({ o with state := clear_cluster_nodes_cache o.state }, 1)

/-- `ElastiCache.get`: `super().get(...)` wrapped with
`invalidate_cache_after_error`. -/
def ElastiCache.get {A : Type} (cfg : ECConfig) (env : Env)
    (op : MCClient → Except PyExc A) (st : ECState) : OpOutcome A × Nat :=
  invalidate_cache_after_error (superOp cfg env op) st

/-- `ElastiCache.get_many`: `super().get_many(...)` wrapped with
`invalidate_cache_after_error`. -/
def ElastiCache.get_many {A : Type} (cfg : ECConfig) (env : Env)
    (op : MCClient → Except PyExc A) (st : ECState) : OpOutcome A × Nat :=
  invalidate_cache_after_error (superOp cfg env op) st

/-- `ElastiCache.set`: `super().set(...)` wrapped with
`invalidate_cache_after_error`. -/
def ElastiCache.set {A : Type} (cfg : ECConfig) (env : Env)
    (op : MCClient → Except PyExc A) (st : ECState) : OpOutcome A × Nat :=
  invalidate_cache_after_error (superOp cfg env op) st

/-- `ElastiCache.set_many`: `super().set_many(...)` wrapped with
`invalidate_cache_after_error`. -/
def ElastiCache.set_many {A : Type} (cfg : ECConfig) (env : Env)
    (op : MCClient → Except PyExc A) (st : ECState) : OpOutcome A × Nat :=
  invalidate_cache_after_error (superOp cfg env op) st

/-- `ElastiCache.delete`: `super().delete(...)` wrapped with
`invalidate_cache_after_error`. -/
def ElastiCache.delete {A : Type} (cfg : ECConfig) (env : Env)
    (op : MCClient → Except PyExc A) (st : ECState) : OpOutcome A × Nat :=
  invalidate_cache_after_error (superOp cfg env op) st

/-! Concrete instances used to exercise the theorems. -/

/-- A concrete configuration: endpoint `cfg.example.com:11211`, empty
`OPTIONS`, no discovery timeout. -/
def cfgEx : ECConfig :=
  { _servers := ["cfg.example.com:11211"]
    _options := []
    _discovery_timeout := PyVal.none
    _ignore_cluster_errors := PyVal.bool false }

/-- A concrete node list, as discovery would return it. -/
def nodesEx : Nodes := ["10.0.0.1:11211", "10.0.0.2:11211"]

/-- A discovery environment that always succeeds with `nodesEx`. -/
def envEx : Env :=
  { get_cluster_info := fun _ _ _ _ => Except.ok nodesEx }

/-- A discovery environment that always raises `socket.gaierror`. -/
def envGai : Env :=
  { get_cluster_info := fun _ _ _ _ =>
      Except.error (PyExc.gaierror "name or service not known") }

/-- A discovery environment that always raises a non-socket error. -/
def envKeyErr : Env :=
  { get_cluster_info := fun _ _ _ _ =>
      Except.error (PyExc.other "KeyError" "nodes") }

/-- A concrete cached client handle. -/
def clientEx : MCClient := { nodes := nodesEx, behaviors := Option.none }

/-- A warm state: node list and client handle both cached. -/
def warmState : ECState :=
  { _cluster_nodes_cache := Option.some nodesEx, _client := Option.some clientEx }

/-- A cold state: nothing cached. -/
def coldState : ECState :=
  { _cluster_nodes_cache := Option.none, _client := Option.none }

/-- An underlying pylibmc operation that always raises. -/
def opFail : MCClient → Except PyExc String :=
  fun _ => Except.error (PyExc.other "ConnectionError" "connection reset by peer")

/-- An underlying pylibmc operation that always succeeds. -/
def opOk : MCClient → Except PyExc String :=
  fun _ => Except.ok "v"

/-! Helper lemmas shared by the claim theorems. -/

/-- When the wrapped function raises, `invalidate_cache_after_error` clears
the node cache on its final state, re-raises the same exception, and invokes
the wrapped function once. -/
theorem invalidate_cache_after_error_of_error {A : Type}
    (f : ECState → OpOutcome A) (st : ECState) (e : PyExc)
    (h : (f st).result = Except.error e) :
    invalidate_cache_after_error f st =
      ({ f st with state := clear_cluster_nodes_cache (f st).state }, 1) := by
  simp only [invalidate_cache_after_error, h]

/-- A cache hit in `get_cluster_nodes` returns the cached list and performs
no discovery. -/
theorem get_cluster_nodes_of_hit (cfg : ECConfig) (env : Env) (st : ECState)
    (ns : Nodes) (h : st._cluster_nodes_cache = Option.some ns) :
    get_cluster_nodes cfg env st =
      { result := Except.ok ns, state := st
        discovery_calls := [], constructions := 0 } := by
  unfold get_cluster_nodes
  rw [h]

/-- A successful `get_cluster_nodes` stores the returned list in
`_cluster_nodes_cache` and performs at most one discovery call. -/
theorem get_cluster_nodes_ok_sets_cache (cfg : ECConfig) (env : Env)
    (st : ECState) (ns : Nodes)
    (h : (get_cluster_nodes cfg env st).result = Except.ok ns) :
    (get_cluster_nodes cfg env st).state._cluster_nodes_cache = Option.some ns
    ∧ (get_cluster_nodes cfg env st).discovery_calls.length ≤ 1 := by
  rcases hc : st._cluster_nodes_cache with _ | ns0
  · rcases hs : cfg._servers with _ | ⟨s0, rest⟩
    · simp [get_cluster_nodes, hc, hs] at h
    · rcases hsp : pySplit s0 ':' with _ | ⟨a, _ | ⟨b, _ | ⟨c, r3⟩⟩⟩
      · simp [get_cluster_nodes, hc, hs, hsp] at h
      · simp [get_cluster_nodes, hc, hs, hsp] at h
      · rcases he : env.get_cluster_info a b cfg._discovery_timeout
            cfg._ignore_cluster_errors with e | nodes
        · cases hce : isConnExc e
          · simp [get_cluster_nodes, hc, hs, hsp, he, hce] at h
          · simp [get_cluster_nodes, hc, hs, hsp, he, hce] at h
        · simp only [get_cluster_nodes, hc, hs, hsp, he] at h ⊢
          simp at h
          subst h
          exact ⟨rfl, by simp⟩
      · simp [get_cluster_nodes, hc, hs, hsp] at h
  · simp only [get_cluster_nodes, hc] at h ⊢
    simp at h
    subst h
    exact ⟨rfl, by simp⟩

/-- A successful `_cache` access leaves the returned client stored in the
`_client` attribute. -/
theorem cacheProperty_ok_sets_client (cfg : ECConfig) (env : Env)
    (st : ECState) (c : MCClient)
    (h : (cacheProperty cfg env st).result = Except.ok c) :
    (cacheProperty cfg env st).state._client = Option.some c := by
  rcases hc : st._client with _ | client
  · rcases hr : (get_cluster_nodes cfg env st).result with e | nodes
    · simp [cacheProperty, hc, hr] at h
    · simp only [cacheProperty, hc, hr] at h ⊢
      simp at h
      subst h
      rfl
  · simp only [cacheProperty, hc] at h ⊢
    simp at h
    subst h
    rfl

/-- Every discovery call issued by `get_cluster_nodes` carries the stored
`_discovery_timeout` and `_ignore_cluster_errors` values. -/
theorem discovery_calls_use_config (cfg : ECConfig) (env : Env) (st : ECState) :
    ∀ call ∈ (get_cluster_nodes cfg env st).discovery_calls,
      call.timeout = cfg._discovery_timeout
      ∧ call.ignore_errors = cfg._ignore_cluster_errors := by
  intro call hcall
  rcases hc : st._cluster_nodes_cache with _ | ns0
  · rcases hs : cfg._servers with _ | ⟨s0, rest⟩
    · simp [get_cluster_nodes, hc, hs] at hcall
    · rcases hsp : pySplit s0 ':' with _ | ⟨a, _ | ⟨b, _ | ⟨c, r3⟩⟩⟩
      · simp [get_cluster_nodes, hc, hs, hsp] at hcall
      · simp [get_cluster_nodes, hc, hs, hsp] at hcall
      · rcases he : env.get_cluster_info a b cfg._discovery_timeout
            cfg._ignore_cluster_errors with e | nodes
        · cases hce : isConnExc e
          · simp [get_cluster_nodes, hc, hs, hsp, he, hce] at hcall
            subst hcall
            exact ⟨rfl, rfl⟩
          · simp [get_cluster_nodes, hc, hs, hsp, he, hce] at hcall
            subst hcall
            exact ⟨rfl, rfl⟩
        · simp [get_cluster_nodes, hc, hs, hsp, he] at hcall
          subst hcall
          exact ⟨rfl, rfl⟩
      · simp [get_cluster_nodes, hc, hs, hsp] at hcall
  · simp [get_cluster_nodes, hc] at hcall

/-! Claim theorems. -/

/-- C7: `clear_cluster_nodes_cache` unconditionally leaves the node-list
cache empty, calling it twice equals calling it once, and calling it on a
state whose node cache is already clear leaves the state unchanged. -/
theorem clear_cluster_nodes_cache_idempotent (st : ECState) :
    (clear_cluster_nodes_cache st)._cluster_nodes_cache = Option.none
    ∧ clear_cluster_nodes_cache (clear_cluster_nodes_cache st) =
        clear_cluster_nodes_cache st
    ∧ (st._cluster_nodes_cache = Option.none → clear_cluster_nodes_cache st = st) := by
  refine ⟨rfl, rfl, fun h => ?_⟩
  cases st with
  | mk nc cl =>
    change nc = Option.none at h
    subst h
    rfl

/-- C7 witness: clearing an already-clear state is the identity. -/
theorem clear_cluster_nodes_cache_idempotent_witness :
    clear_cluster_nodes_cache coldState = coldState :=
  (clear_cluster_nodes_cache_idempotent coldState).2.2 rfl

/-- C9: `clear_cluster_nodes_cache` leaves the `_client` attribute unchanged,
and when a client handle is cached, a `_cache` access after the clear returns
that same handle with no discovery and no construction. -/
theorem clear_cluster_nodes_cache_preserves_client (st : ECState) (client : MCClient) :
    (clear_cluster_nodes_cache st)._client = st._client
    ∧ (st._client = Option.some client →
        (clear_cluster_nodes_cache st)._client = Option.some client
        ∧ ∀ (cfg : ECConfig) (env : Env),
            cacheProperty cfg env (clear_cluster_nodes_cache st) =
              { result := Except.ok client, state := clear_cluster_nodes_cache st
                discovery_calls := [], constructions := 0 }) := by
  refine ⟨rfl, fun h => ⟨h, fun cfg env => ?_⟩⟩
  cases st with
  | mk nc cl =>
    change cl = Option.some client at h
    subst h
    rfl

/-- C9 witness: clearing the warm state keeps the cached client, and the next
`_cache` access returns it without discovery or construction. -/
theorem clear_cluster_nodes_cache_preserves_client_witness :
    cacheProperty cfgEx envEx (clear_cluster_nodes_cache warmState) =
      { result := Except.ok clientEx, state := clear_cluster_nodes_cache warmState
        discovery_calls := [], constructions := 0 } :=
  ((clear_cluster_nodes_cache_preserves_client warmState clientEx).2 rfl).2 cfgEx envEx

/-- C3: constructing with more than one server, or with a single server that
does not split into exactly two colon-separated parts, fails with
`InvalidCacheBackendError`; a single well-formed `host:port` server
constructs successfully (the embedded constructor makes no network call: it
does not even receive a discovery environment). -/
theorem construction_validation (servers : List String) (params options : PyDict)
    (s0 : String) :
    (servers.length > 1 →
      elastiCacheInit servers params options =
        Except.error (PyExc.invalidCacheBackendError
          "ElastiCache should be configured with only one server (Configuration Endpoint)"))
    ∧ (servers = [s0] → (pySplit s0 ':').length ≠ 2 →
        elastiCacheInit servers params options =
          Except.error (PyExc.invalidCacheBackendError
            "Server configuration should be in format IP:port"))
    ∧ (servers = [s0] → (pySplit s0 ':').length = 2 →
        elastiCacheInit servers params options =
          Except.ok
            { _servers := [s0]
              _options := options
              _discovery_timeout := dictGet params "DISCOVERY_TIMEOUT" PyVal.none
              _ignore_cluster_errors :=
                dictGet options "IGNORE_CLUSTER_ERRORS" (PyVal.bool false) }) := by
  refine ⟨fun h => ?_, fun h1 h2 => ?_, fun h1 h2 => ?_⟩
  · simp [elastiCacheInit, h]
  · subst h1
    simp [elastiCacheInit, h2]
  · subst h1
    simp [elastiCacheInit, h2]

/-- C3 witness: two servers fail, a portless server fails, a well-formed
single server succeeds. -/
theorem construction_validation_witness :
    elastiCacheInit ["h1:11211", "h2:11211"] [] [] =
      Except.error (PyExc.invalidCacheBackendError
        "ElastiCache should be configured with only one server (Configuration Endpoint)")
    ∧ elastiCacheInit ["noport"] [] [] =
        Except.error (PyExc.invalidCacheBackendError
          "Server configuration should be in format IP:port")
    ∧ elastiCacheInit ["cfg.example.com:11211"] [] [] =
        Except.ok
          { _servers := ["cfg.example.com:11211"]
            _options := []
            _discovery_timeout := PyVal.none
            _ignore_cluster_errors := PyVal.bool false } :=
  ⟨(construction_validation ["h1:11211", "h2:11211"] [] [] "h1:11211").1 (by decide),
   (construction_validation ["noport"] [] [] "noport").2.1 rfl (by decide),
   (construction_validation ["cfg.example.com:11211"] [] [] "cfg.example.com:11211").2.2
     rfl (by decide)⟩

/-- C1 counterexample: starting warm (node list and client both cached), a
failing `get` re-raises the exception, yet the underlying client cache is NOT
empty afterwards — the cached handle survives — and the following operation
performs zero discovery calls and zero client constructions, contradicting
the claimed joint invalidation. -/
theorem joint_invalidation_counterexample :
    (ElastiCache.get cfgEx envEx opFail warmState).1.result =
      Except.error (PyExc.other "ConnectionError" "connection reset by peer")
    ∧ (ElastiCache.get cfgEx envEx opFail warmState).1.state._client =
        Option.some clientEx
    ∧ (Option.some clientEx ≠ (Option.none : Option MCClient))
    ∧ (ElastiCache.get cfgEx envEx opOk
        (ElastiCache.get cfgEx envEx opFail warmState).1.state).1.discovery_calls = []
    ∧ (ElastiCache.get cfgEx envEx opOk
        (ElastiCache.get cfgEx envEx opFail warmState).1.state).1.constructions = 0 := by
  refine ⟨rfl, rfl, ?_, rfl, rfl⟩
  intro h
  exact Option.noConfusion h

/-- C1 (amended): when the underlying call of a wrapped operation raises, the
node-list cache (membership cache) is cleared and the exception re-raised
unchanged, but the cached client handle is left exactly as the underlying
call left it — it is not invalidated — and all five wrapped operations behave
identically. -/
theorem error_invalidates_only_node_cache {A : Type} (cfg : ECConfig) (env : Env)
    (op : MCClient → Except PyExc A) (st : ECState) (e : PyExc)
    (h : (superOp cfg env op st).result = Except.error e) :
    ElastiCache.get cfg env op st =
      ({ superOp cfg env op st with
          state := clear_cluster_nodes_cache (superOp cfg env op st).state }, 1)
    ∧ (ElastiCache.get cfg env op st).1.state._cluster_nodes_cache = Option.none
    ∧ (ElastiCache.get cfg env op st).1.state._client =
        (superOp cfg env op st).state._client
    ∧ (ElastiCache.get cfg env op st).1.result = Except.error e
    ∧ ElastiCache.get_many cfg env op st = ElastiCache.get cfg env op st
    ∧ ElastiCache.set cfg env op st = ElastiCache.get cfg env op st
    ∧ ElastiCache.set_many cfg env op st = ElastiCache.get cfg env op st
    ∧ ElastiCache.delete cfg env op st = ElastiCache.get cfg env op st := by
  have h1 : ElastiCache.get cfg env op st =
      ({ superOp cfg env op st with
          state := clear_cluster_nodes_cache (superOp cfg env op st).state }, 1) :=
    invalidate_cache_after_error_of_error (superOp cfg env op) st e h
  refine ⟨h1, ?_, ?_, ?_, rfl, rfl, rfl, rfl⟩
  · rw [h1]
    rfl
  · rw [h1]
    rfl
  · rw [h1]
    exact h

/-- C1 (amended) witness: at the warm state with a failing operation, the
client handle survives the error path. -/
theorem error_invalidates_only_node_cache_witness :
    (superOp cfgEx envEx opFail warmState).result =
      Except.error (PyExc.other "ConnectionError" "connection reset by peer")
    ∧ (ElastiCache.get cfgEx envEx opFail warmState).1.state._client =
        (superOp cfgEx envEx opFail warmState).state._client :=
  ⟨rfl,
   (error_invalidates_only_node_cache cfgEx envEx opFail warmState
     (PyExc.other "ConnectionError" "connection reset by peer") rfl).2.2.1⟩

/-- C4: for every wrapped operation, when the underlying call raises, the
wrapper re-raises the very same exception and invokes the underlying call
exactly once (no internal retry). -/
theorem one_invocation_one_raise {A : Type} (cfg : ECConfig) (env : Env)
    (op : MCClient → Except PyExc A) (st : ECState) (e : PyExc)
    (h : (superOp cfg env op st).result = Except.error e) :
    (ElastiCache.get cfg env op st).1.result = Except.error e
    ∧ (ElastiCache.get cfg env op st).2 = 1
    ∧ (ElastiCache.get_many cfg env op st).1.result = Except.error e
    ∧ (ElastiCache.get_many cfg env op st).2 = 1
    ∧ (ElastiCache.set cfg env op st).1.result = Except.error e
    ∧ (ElastiCache.set cfg env op st).2 = 1
    ∧ (ElastiCache.set_many cfg env op st).1.result = Except.error e
    ∧ (ElastiCache.set_many cfg env op st).2 = 1
    ∧ (ElastiCache.delete cfg env op st).1.result = Except.error e
    ∧ (ElastiCache.delete cfg env op st).2 = 1 := by
  have h1 : ElastiCache.get cfg env op st =
      ({ superOp cfg env op st with
          state := clear_cluster_nodes_cache (superOp cfg env op st).state }, 1) :=
    invalidate_cache_after_error_of_error (superOp cfg env op) st e h
  have hr : (ElastiCache.get cfg env op st).1.result = Except.error e := by
    rw [h1]
    exact h
  have hc : (ElastiCache.get cfg env op st).2 = 1 := by rw [h1]
  exact ⟨hr, hc, hr, hc, hr, hc, hr, hc, hr, hc⟩

/-- C4 witness: a failing `set` at the warm state re-raises the same
exception with a single invocation of the underlying operation. -/
theorem one_invocation_one_raise_witness :
    (ElastiCache.set cfgEx envEx opFail warmState).1.result =
      Except.error (PyExc.other "ConnectionError" "connection reset by peer")
    ∧ (ElastiCache.set cfgEx envEx opFail warmState).2 = 1 := by
  have h := one_invocation_one_raise cfgEx envEx opFail warmState
    (PyExc.other "ConnectionError" "connection reset by peer") rfl
  exact ⟨h.2.2.2.2.1, h.2.2.2.2.2.1⟩

/-- C2: a cache hit in `get_cluster_nodes` returns the stored list with no
discovery call; a successful call stores its result, makes at most one
discovery call, and a second call from the resulting state returns the
identical list with no discovery call and no state change. -/
theorem get_cluster_nodes_idempotent (cfg : ECConfig) (env : Env) (st : ECState)
    (ns : Nodes) :
    (st._cluster_nodes_cache = Option.some ns →
      get_cluster_nodes cfg env st =
        { result := Except.ok ns, state := st
          discovery_calls := [], constructions := 0 })
    ∧ ((get_cluster_nodes cfg env st).result = Except.ok ns →
        (get_cluster_nodes cfg env st).state._cluster_nodes_cache = Option.some ns
        ∧ (get_cluster_nodes cfg env st).discovery_calls.length ≤ 1
        ∧ get_cluster_nodes cfg env (get_cluster_nodes cfg env st).state =
            { result := Except.ok ns
              state := (get_cluster_nodes cfg env st).state
              discovery_calls := [], constructions := 0 }) := by
  refine ⟨fun h => get_cluster_nodes_of_hit cfg env st ns h, fun h => ?_⟩
  obtain ⟨h1, h2⟩ := get_cluster_nodes_ok_sets_cache cfg env st ns h
  exact ⟨h1, h2, get_cluster_nodes_of_hit cfg env _ ns h1⟩

/-- C2 witness: from the cold state, a successful discovery is followed by a
second `get_cluster_nodes` that returns the same list with no discovery. -/
theorem get_cluster_nodes_idempotent_witness :
    get_cluster_nodes cfgEx envEx (get_cluster_nodes cfgEx envEx coldState).state =
      { result := Except.ok nodesEx
        state := (get_cluster_nodes cfgEx envEx coldState).state
        discovery_calls := [], constructions := 0 } :=
  ((get_cluster_nodes_idempotent cfgEx envEx coldState nodesEx).2 rfl).2.2

/-- C5: when the node cache is absent and discovery raises `socket.gaierror`
or `socket.timeout`, `get_cluster_nodes` raises a plain `Exception` whose
message carries the configured endpoint and the original cause, caches
nothing (the state is unchanged, node cache still absent), and a subsequent
call re-attempts discovery. -/
theorem discovery_failure_wrapped (cfg : ECConfig) (env : Env) (st : ECState)
    (s0 : String) (rest : List String) (server port : String) (e : PyExc)
    (hst : st._cluster_nodes_cache = Option.none)
    (hs : cfg._servers = s0 :: rest)
    (hsp : pySplit s0 ':' = [server, port])
    (he : env.get_cluster_info server port cfg._discovery_timeout
        cfg._ignore_cluster_errors = Except.error e)
    (hce : isConnExc e = true) :
    get_cluster_nodes cfg env st =
      { result := Except.error (PyExc.exception
          ("Cannot connect to cluster " ++ s0 ++ " (" ++ e.message ++ ")"))
        state := st
        discovery_calls := [{ server := server, port := port
                              timeout := cfg._discovery_timeout
                              ignore_errors := cfg._ignore_cluster_errors }]
        constructions := 0 }
    ∧ (get_cluster_nodes cfg env st).state._cluster_nodes_cache = Option.none
    ∧ (get_cluster_nodes cfg env
        (get_cluster_nodes cfg env st).state).discovery_calls.length = 1 := by
  have h1 : get_cluster_nodes cfg env st =
      { result := Except.error (PyExc.exception
          ("Cannot connect to cluster " ++ s0 ++ " (" ++ e.message ++ ")"))
        state := st
        discovery_calls := [{ server := server, port := port
                              timeout := cfg._discovery_timeout
                              ignore_errors := cfg._ignore_cluster_errors }]
        constructions := 0 } := by
    simp [get_cluster_nodes, hst, hs, hsp, he, hce]
  refine ⟨h1, ?_, ?_⟩
  · rw [h1]
    exact hst
  · simp only [h1]
    rfl

/-- C5 witness: at the cold state under the `gaierror` environment, the
wrapped error message names the endpoint and the cause and the node cache
stays absent. -/
theorem discovery_failure_wrapped_witness :
    get_cluster_nodes cfgEx envGai coldState =
      { result := Except.error (PyExc.exception
          "Cannot connect to cluster cfg.example.com:11211 (name or service not known)")
        state := coldState
        discovery_calls := [{ server := "cfg.example.com", port := "11211"
                              timeout := PyVal.none
                              ignore_errors := PyVal.bool false }]
        constructions := 0 } :=
  (discovery_failure_wrapped cfgEx envGai coldState "cfg.example.com:11211" []
    "cfg.example.com" "11211" (PyExc.gaierror "name or service not known")
    rfl rfl rfl rfl rfl).1

/-- C10: `isConnExc` holds exactly for `socket.gaierror` and
`socket.timeout`; any other exception raised by the discovery call propagates
from `get_cluster_nodes` unchanged and unwrapped, with the node cache still
unset. -/
theorem non_socket_errors_propagate (cfg : ECConfig) (env : Env) (st : ECState)
    (s0 : String) (rest : List String) (server port : String) (e : PyExc)
    (hst : st._cluster_nodes_cache = Option.none)
    (hs : cfg._servers = s0 :: rest)
    (hsp : pySplit s0 ':' = [server, port])
    (he : env.get_cluster_info server port cfg._discovery_timeout
        cfg._ignore_cluster_errors = Except.error e) :
    (isConnExc e = true ↔
      ((∃ m, e = PyExc.gaierror m) ∨ (∃ m, e = PyExc.timeout m)))
    ∧ (isConnExc e = false →
        get_cluster_nodes cfg env st =
          { result := Except.error e
            state := st
            discovery_calls := [{ server := server, port := port
                                  timeout := cfg._discovery_timeout
                                  ignore_errors := cfg._ignore_cluster_errors }]
            constructions := 0 }
        ∧ (get_cluster_nodes cfg env st).state._cluster_nodes_cache = Option.none) := by
  constructor
  · cases e <;> simp [isConnExc]
  · intro hce
    have h1 : get_cluster_nodes cfg env st =
        { result := Except.error e
          state := st
          discovery_calls := [{ server := server, port := port
                                timeout := cfg._discovery_timeout
                                ignore_errors := cfg._ignore_cluster_errors }]
          constructions := 0 } := by
      simp [get_cluster_nodes, hst, hs, hsp, he, hce]
    refine ⟨h1, ?_⟩
    rw [h1]
    exact hst

/-- C10 witness: a `KeyError` from discovery reaches the caller unchanged
with the node cache still unset. -/
theorem non_socket_errors_propagate_witness :
    get_cluster_nodes cfgEx envKeyErr coldState =
      { result := Except.error (PyExc.other "KeyError" "nodes")
        state := coldState
        discovery_calls := [{ server := "cfg.example.com", port := "11211"
                              timeout := PyVal.none
                              ignore_errors := PyVal.bool false }]
        constructions := 0 } :=
  ((non_socket_errors_propagate cfgEx envKeyErr coldState "cfg.example.com:11211" []
    "cfg.example.com" "11211" (PyExc.other "KeyError" "nodes")
    rfl rfl rfl rfl).2 rfl).1

/-- C6: the `_cache` accessor returns a cached client handle when present;
on a miss it obtains the node list via `get_cluster_nodes`, constructs the
client (with the behavior options applied once, as recorded in
`builtClient`), stores and returns it with exactly one construction; and a
second access after a successful one returns the same handle with no
discovery and no construction. -/
theorem cache_accessor_behavior (cfg : ECConfig) (env : Env) (st : ECState)
    (client : MCClient) (ns : Nodes) :
    (st._client = Option.some client →
      cacheProperty cfg env st =
        { result := Except.ok client, state := st
          discovery_calls := [], constructions := 0 })
    ∧ (st._client = Option.none →
        (get_cluster_nodes cfg env st).result = Except.ok ns →
        cacheProperty cfg env st =
          { result := Except.ok (builtClient cfg ns)
            state := { (get_cluster_nodes cfg env st).state with
                        _client := Option.some (builtClient cfg ns) }
            discovery_calls := (get_cluster_nodes cfg env st).discovery_calls
            constructions := (get_cluster_nodes cfg env st).constructions + 1 })
    ∧ ((cacheProperty cfg env st).result = Except.ok client →
        cacheProperty cfg env (cacheProperty cfg env st).state =
          { result := Except.ok client
            state := (cacheProperty cfg env st).state
            discovery_calls := [], constructions := 0 }) := by
  refine ⟨fun h => ?_, fun h1 h2 => ?_, fun h => ?_⟩
  · simp [cacheProperty, h]
  · simp [cacheProperty, h1, h2]
  · have hcl := cacheProperty_ok_sets_client cfg env st client h
    generalize (cacheProperty cfg env st).state = st2 at hcl ⊢
    simp [cacheProperty, hcl]

/-- C6 witness: from the cold state, a second `_cache` access returns the
client built during the first one, with no discovery and no construction. -/
theorem cache_accessor_behavior_witness :
    cacheProperty cfgEx envEx (cacheProperty cfgEx envEx coldState).state =
      { result := Except.ok (builtClient cfgEx nodesEx)
        state := (cacheProperty cfgEx envEx coldState).state
        discovery_calls := [], constructions := 0 } :=
  (cache_accessor_behavior cfgEx envEx coldState (builtClient cfgEx nodesEx)
    nodesEx).2.2 rfl

/-- C8: construction stores `PyVal.none` as discovery timeout when
`DISCOVERY_TIMEOUT` is absent from `params` and `False` as the
ignore-cluster-errors flag when `IGNORE_CLUSTER_ERRORS` is absent from the
options, and every discovery call made by `get_cluster_nodes` passes exactly
the stored values. -/
theorem discovery_config_defaults_and_passthrough (servers : List String)
    (params options : PyDict) (cfg : ECConfig) (env : Env) (st : ECState)
    (hok : elastiCacheInit servers params options = Except.ok cfg) :
    (params.find? (fun kv => kv.1 = "DISCOVERY_TIMEOUT") = Option.none →
      cfg._discovery_timeout = PyVal.none)
    ∧ (options.find? (fun kv => kv.1 = "IGNORE_CLUSTER_ERRORS") = Option.none →
        cfg._ignore_cluster_errors = PyVal.bool false)
    ∧ ∀ call ∈ (get_cluster_nodes cfg env st).discovery_calls,
        call.timeout = cfg._discovery_timeout
        ∧ call.ignore_errors = cfg._ignore_cluster_errors := by
  refine ⟨fun hp => ?_, fun ho => ?_, discovery_calls_use_config cfg env st⟩
  · rcases servers with _ | ⟨s0, rest⟩
    · simp [elastiCacheInit] at hok
    · rcases rest with _ | ⟨s1, rest'⟩
      · by_cases h2 : (pySplit s0 ':').length = 2
        · simp [elastiCacheInit, h2] at hok
          rw [← hok]
          simp [dictGet, hp]
        · simp [elastiCacheInit, h2] at hok
      · simp only [elastiCacheInit] at hok
        rw [if_pos (by simp only [List.length_cons]; omega)] at hok
        exact Except.noConfusion hok
  · rcases servers with _ | ⟨s0, rest⟩
    · simp [elastiCacheInit] at hok
    · rcases rest with _ | ⟨s1, rest'⟩
      · by_cases h2 : (pySplit s0 ':').length = 2
        · simp [elastiCacheInit, h2] at hok
          rw [← hok]
          simp [dictGet, ho]
        · simp [elastiCacheInit, h2] at hok
      · simp only [elastiCacheInit] at hok
        rw [if_pos (by simp only [List.length_cons]; omega)] at hok
        exact Except.noConfusion hok

/-- C8 witness: with empty `params` and `OPTIONS`, the constructed
configuration defaults both values, and the discovery call from the cold
state passes exactly those stored values. -/
theorem discovery_config_defaults_and_passthrough_witness :
    cfgEx._discovery_timeout = PyVal.none
    ∧ cfgEx._ignore_cluster_errors = PyVal.bool false
    ∧ ∀ call ∈ (get_cluster_nodes cfgEx envEx coldState).discovery_calls,
        call.timeout = cfgEx._discovery_timeout
        ∧ call.ignore_errors = cfgEx._ignore_cluster_errors := by
  have h := discovery_config_defaults_and_passthrough ["cfg.example.com:11211"]
    [] [] cfgEx envEx coldState rfl
  exact ⟨h.1 rfl, h.2.1 rfl, h.2.2⟩

end DjangoElasticache
